import Mathlib

/- Shallow embedding of the profit-analysis dashboard (src/app.py): the column
role detector `find_column`, the selectbox default-index computation built on
Python's `list.index`, the data-cleaning step (`pd.to_datetime`,
`pd.to_numeric`, `dropna`) and the derived metrics (totals, daily profit
series, loss-by-product report).  Numbers are modelled as exact rationals,
parsed datetimes as day indices since the Unix epoch. -/

attribute [local semireducible] Rat.add Rat.sub Rat.mul Rat.inv Rat.ofScientific

/-- A spreadsheet cell as it lives in a pandas column: a number, a piece of
text, a parsed datetime (day index since 1970-01-01), or a missing value
(NaN / NaT). -/
inductive Cell where
  | missing : Cell
  | num : ℚ → Cell
  | text : String → Cell
  | date : ℤ → Cell
deriving DecidableEq

/-- A dataframe row: an association list from column name to cell value.
The dataset invariant is that column names are unique within a row. -/
abbrev Row := List (String × Cell)

/-- Reading `df[c]` in one row: the value of the first binding of column `c`,
missing when the column is absent. -/
def Row.get : Row → String → Cell
  | [], _ => Cell.missing
  | p :: t, c => if p.1 = c then p.2 else Row.get t c

/-- Writing `df[c] = v` in one row: replace the value of every binding of
column `c` (a no-op when the column is absent). -/
def Row.set : Row → String → Cell → Row
  | [], _, _ => []
  | p :: t, c, v => (if p.1 = c then (p.1, v) else p) :: Row.set t c v

/-- Whether a row has a binding for column `c`. -/
def Row.has : Row → String → Bool
  | [], _ => false
  | p :: t, c => decide (p.1 = c) || Row.has t c

/-- The five selectbox choices of app.py lines 118-122, one column name per
semantic role. -/
structure RoleMap where
  date_col : String
  sales_col : String
  profit_col : String
  category_col : String
  product_col : String
deriving DecidableEq

/-- Python's `str.lower` on the ASCII column names at hand, viewed as a
character list. -/
def toLowerL (s : String) : List Char :=
  s.toList.map Char.toLower

/-- Python's substring test `needle in hay` on character lists. -/
def isSubList (needle : List Char) : List Char → Bool
  | [] => needle.isEmpty
  | c :: rest => needle.isPrefixOf (c :: rest) || isSubList needle rest

/-- app.py lines 96-101: scan the columns in order and return the first one
whose lowercased name contains one of the lowercased keywords; `None` when no
column matches. -/
def find_column (cols : List String) (keys : List String) : Option String :=
  cols.find? (fun col => keys.any (fun k => isSubList (toLowerL k) (toLowerL col)))

/-- Keyword list for the Date role (app.py line 118). -/
def dateKeys : List String := ["date"]

/-- Keyword list for the Sales role (app.py line 119). -/
def salesKeys : List String := ["sales", "revenue"]

/-- Keyword list for the Profit role (app.py line 120). -/
def profitKeys : List String := ["profit"]

/-- Keyword list for the Category role (app.py line 121). -/
def categoryKeys : List String := ["category"]

/-- Keyword list for the Product role (app.py line 122). -/
def productKeys : List String := ["product", "item"]

/-- The error a CPython list operation can raise in the mapping step. -/
inductive PyError where
  | valueError : PyError
deriving DecidableEq

/-- Python's `cols.index(x)` where `x` came from `find_column`: the position of
the first occurrence of `x`, and `ValueError` when `x` is `None` (never an
element of a list of strings) or not present. -/
def list_index (cols : List String) : Option String → Except PyError Nat
  | none => Except.error PyError.valueError
  | some c =>
    match cols.findIdx? (fun x => decide (x = c)) with
    | some i => Except.ok i
    | none => Except.error PyError.valueError

/-- The `index=cols.index(find_column(cols, keys))` argument of each selectbox
in app.py lines 118-122. -/
def default_index (cols keys : List String) : Except PyError Nat :=
  list_index cols (find_column cols keys)

/-- Resolver as worded by the spec (section 4.1): the first column, in the
original column order, whose lowercased form contains one of the role's
lowercase keyword substrings; no suggestion otherwise. -/
def spec_first_match (keys cols : List String) : Option String :=
  (cols.filter (fun col => decide (∃ k ∈ keys, isSubList (toLowerL k) (toLowerL col) = true))).head?

/- ---------------------------------------------------------------------- -/
/- Data cleaning (app.py lines 127-130).                                   -/
/- ---------------------------------------------------------------------- -/

/-- Value of an ASCII digit character. -/
def digitVal (c : Char) : Nat := c.toNat - 48

/-- The natural number written by a list of digit characters. -/
def natOfDigits (ds : List Char) : Nat :=
  ds.foldl (fun n c => n * 10 + digitVal c) 0

/-- Parse a numeric string the way `pd.to_numeric` accepts one: optional
surrounding spaces, optional sign, digits with an optional fractional part,
optional exponent.  `none` models NaN after coercion. -/
def parseNum (s : String) : Option ℚ :=
  let cs := ((s.toList.dropWhile (fun c => c = ' ')).reverse.dropWhile (fun c => c = ' ')).reverse
  let sgncs : ℚ × List Char :=
    match cs with
    | '+' :: t => (1, t)
    | '-' :: t => (-1, t)
    | t => (1, t)
  let sgn := sgncs.1
  let body := sgncs.2
  let ipr := body.span Char.isDigit
  let ip := ipr.1
  let fpr : List Char × List Char :=
    match ipr.2 with
    | '.' :: t => t.span Char.isDigit
    | t => ([], t)
  let fp := fpr.1
  let rest := if (ipr.2).head? = some '.' then fpr.2 else ipr.2
  if ip.isEmpty && fp.isEmpty then none
  else
    let mant : ℚ := (natOfDigits ip : ℚ) + (natOfDigits fp : ℚ) / (10 : ℚ) ^ fp.length
    match rest with
    | [] => some (sgn * mant)
    | e :: t =>
      if e = 'e' ∨ e = 'E' then
        let esgnds : Bool × List Char :=
          match t with
          | '+' :: t2 => (true, t2)
          | '-' :: t2 => (false, t2)
          | t2 => (true, t2)
        if esgnds.2 ≠ [] ∧ esgnds.2.all Char.isDigit then
          let scale : ℚ := (10 : ℚ) ^ natOfDigits esgnds.2
          some (sgn * mant * (if esgnds.1 then scale else scale⁻¹))
        else none
      else none

/-- Days since 1970-01-01 of a Gregorian calendar date (Hinnant's civil-days
computation, valid for the four-digit years accepted by `parseDate`). -/
def daysFromCivil (y m d : Nat) : ℤ :=
  let yy := if m ≤ 2 then y - 1 else y
  let era := yy / 400
  let yoe := yy % 400
  let mp := (m + 9) % 12
  let doy := (153 * mp + 2) / 5 + d - 1
  let doe := yoe * 365 + yoe / 4 - yoe / 100 + doy
  (era * 146097 + doe : ℤ) - 719468

/-- Split a character list at every dash. -/
def splitDash : List Char → List (List Char)
  | [] => [[]]
  | c :: rest =>
    if c = '-' then [] :: splitDash rest
    else
      match splitDash rest with
      | h :: t => (c :: h) :: t
      | [] => [[c]]

/-- Parse an ISO "YYYY-MM-DD" string to a day index, covering the date format
exercised here of the many `pd.to_datetime` accepts; anything else coerces to
NaT (`none`). -/
def parseDate (s : String) : Option ℤ :=
  match splitDash s.toList with
  | [ys, ms, ds] =>
    if ys.length = 4 ∧ ms.length ≤ 2 ∧ ds.length ≤ 2 ∧ ¬ms.isEmpty ∧ ¬ds.isEmpty ∧
        ys.all Char.isDigit ∧ ms.all Char.isDigit ∧ ds.all Char.isDigit then
      let m := natOfDigits ms
      let d := natOfDigits ds
      if 1 ≤ m ∧ m ≤ 12 ∧ 1 ≤ d ∧ d ≤ 31 then
        some (daysFromCivil (natOfDigits ys) m d)
      else none
    else none
  | _ => none

/-- Nanoseconds per day: `pd.to_datetime` reads a bare number as a
nanosecond-precision epoch timestamp. -/
def nsPerDay : ℚ := 86400000000000

/-- Cell-level `pd.to_datetime(xs, errors="coerce")`: datetimes pass through,
numbers are epoch nanoseconds, text is parsed, and failures become NaT. -/
def toDatetime : Cell → Cell
  | Cell.date t => Cell.date t
  | Cell.num q => Cell.date (Rat.floor (q / nsPerDay))
  | Cell.text s =>
    match parseDate s with
    | some t => Cell.date t
    | none => Cell.missing
  | Cell.missing => Cell.missing

/-- Cell-level `pd.to_numeric(xs, errors="coerce")`: numbers pass through,
text is parsed, datetimes are not numeric input, and failures become NaN. -/
def toNumeric : Cell → Cell
  | Cell.num q => Cell.num q
  | Cell.text s =>
    match parseNum s with
    | some q => Cell.num q
    | none => Cell.missing
  | Cell.date _ => Cell.missing
  | Cell.missing => Cell.missing

/-- app.py lines 127-129 on one row: coerce the Date column, then the Sales
column, then the Profit column, each written back in place. -/
def cleanRow (rm : RoleMap) (r : Row) : Row :=
  let r1 := r.set rm.date_col (toDatetime (r.get rm.date_col))
  let r2 := r1.set rm.sales_col (toNumeric (r1.get rm.sales_col))
  r2.set rm.profit_col (toNumeric (r2.get rm.profit_col))

/-- Whether a cell survives `dropna`. -/
def notMissing : Cell → Bool
  | Cell.missing => false
  | _ => true

/-- The `dropna(subset=[date_col, sales_col, profit_col])` row predicate of
app.py line 130. -/
def keepRow (rm : RoleMap) (r : Row) : Bool :=
  notMissing (r.get rm.date_col) && notMissing (r.get rm.sales_col) &&
    notMissing (r.get rm.profit_col)

/-- app.py lines 127-130: coerce the three role columns in place, then drop
every row with a missing value in any of them. -/
def clean (rows : List Row) (rm : RoleMap) : List Row :=
  (rows.map (cleanRow rm)).filter (keepRow rm)

/- ---------------------------------------------------------------------- -/
/- Metrics over the cleaned frame (app.py lines 135-165).                  -/
/- ---------------------------------------------------------------------- -/

/-- Numeric value of a cell for summation; after cleaning the summed columns
hold numbers only. -/
def cellNum : Cell → ℚ
  | Cell.num q => q
  | _ => 0

/-- The `.dt.date` day of a cell; after cleaning the Date column holds
datetimes only. -/
def dtDate : Cell → ℤ
  | Cell.date t => t
  | _ => 0

/-- app.py line 135: `df[sales_col].sum()` over the cleaned frame. -/
def total_sales (df : List Row) (rm : RoleMap) : ℚ :=
  (df.map (fun r => cellNum (r.get rm.sales_col))).sum

/-- app.py line 136: `df[profit_col].sum()` over the cleaned frame. -/
def total_profit (df : List Row) (rm : RoleMap) : ℚ :=
  (df.map (fun r => cellNum (r.get rm.profit_col))).sum

/-- app.py line 154: `df[df[profit_col] < 0]`, the strictly loss-making
rows. -/
def loss_rows (df : List Row) (rm : RoleMap) : List Row :=
  df.filter (fun r => decide (cellNum (r.get rm.profit_col) < 0))

/-- app.py line 137: `df[df[profit_col] < 0][profit_col].sum()`, the raw
(negative) loss total. -/
def total_loss (df : List Row) (rm : RoleMap) : ℚ :=
  ((loss_rows df rm).map (fun r => cellNum (r.get rm.profit_col))).sum

/-- `groupby(keyCol)[valCol].sum()`: one (key, group total) pair per distinct
key of `l`. -/
def group_sums (l : List Row) (keyCol valCol : String) : List (Cell × ℚ) :=
  ((l.map (fun r => r.get keyCol)).dedup).map
    (fun k => (k, ((l.filter (fun r => decide (r.get keyCol = k))).map
      (fun r => cellNum (r.get valCol))).sum))

/-- app.py line 148: `df.groupby(df[date_col].dt.date)[profit_col].sum()`,
the per-day profit series in chronological key order. -/
def daily (df : List Row) (rm : RoleMap) : List (ℤ × ℚ) :=
  (List.insertionSort (fun a b : ℤ => a ≤ b)
      ((df.map (fun r => dtDate (r.get rm.date_col))).dedup)).map
    (fun k => (k, ((df.filter (fun r => decide (dtDate (r.get rm.date_col) = k))).map
      (fun r => cellNum (r.get rm.profit_col))).sum))

/-- app.py lines 160-165 and 188-194:
`loss_df.groupby(product_col)[profit_col].sum().sort_values().head(5)` —
per-product totals of the loss rows, sorted ascending by total, first five. -/
def lossByProduct (df : List Row) (rm : RoleMap) : List (Cell × ℚ) :=
  (List.insertionSort (fun a b : Cell × ℚ => a.2 ≤ b.2)
      (group_sums (loss_rows df rm) rm.product_col rm.profit_col)).take 5

/-- The aggregate outputs the dashboard derives from one upload. -/
structure Metrics where
  totalSales : ℚ
  totalProfit : ℚ
  totalLoss : ℚ
  dailyProfit : List (ℤ × ℚ)
  lossByProduct : List (Cell × ℚ)
deriving DecidableEq

/-- The whole analysis pass of app.py lines 127-165: clean the frame in
place, then read every metric off the cleaned frame.  No step of it can fail:
coercion errors become missing values and empty sums are zero. -/
def analyze (rows : List Row) (rm : RoleMap) : Metrics :=
  let df := clean rows rm
  { totalSales := total_sales df rm
    totalProfit := total_profit df rm
    totalLoss := total_loss df rm
    dailyProfit := daily df rm
    lossByProduct := lossByProduct df rm }

/-- Modelled from the spec: src/app.py computes no profit-margin KPI, and the
spec attributes one to the repository's aggregator (section 4.2); the margin
is `totalProfit / totalSales * 100`, with a zero total defined to give zero
margin. -/
def profitMargin (rows : List Row) (rm : RoleMap) : ℚ :=
  if (analyze rows rm).totalSales ≠ 0 then
    (analyze rows rm).totalProfit / (analyze rows rm).totalSales * 100
  else 0

/- ---------------------------------------------------------------------- -/
/- Concrete uploads used as test inputs.                                   -/
/- ---------------------------------------------------------------------- -/

/-- The spec's section-8 scenario mapping: every role resolved to its named
column. -/
def scenarioRm : RoleMap :=
  { date_col := "Order Date", sales_col := "Sales", profit_col := "Profit"
    category_col := "Category", product_col := "Product" }

/-- The spec's section-8 scenario upload: three rows of sales records. -/
def scenarioRows : List Row :=
  [[("Order Date", Cell.text "2024-01-01"), ("Sales", Cell.num 100),
    ("Profit", Cell.num 20), ("Category", Cell.text "A"), ("Product", Cell.text "X")],
   [("Order Date", Cell.text "2024-01-01"), ("Sales", Cell.num 50),
    ("Profit", Cell.num (-10)), ("Category", Cell.text "A"), ("Product", Cell.text "Y")],
   [("Order Date", Cell.text "2024-01-02"), ("Sales", Cell.num 200),
    ("Profit", Cell.num 30), ("Category", Cell.text "B"), ("Product", Cell.text "X")]]

/-- A mapping that sends both Sales and Profit to the same column "Value". -/
def dupRm : RoleMap :=
  { date_col := "Date", sales_col := "Value", profit_col := "Value"
    category_col := "Category", product_col := "Product" }

/-- An upload analyzed under `dupRm`. -/
def dupRows : List Row :=
  [[("Date", Cell.text "2024-01-01"), ("Value", Cell.num 30),
    ("Category", Cell.text "A"), ("Product", Cell.text "X")]]

/-- The straightforward mapping for `badRows`. -/
def badRm : RoleMap :=
  { date_col := "Date", sales_col := "Sales", profit_col := "Profit"
    category_col := "Category", product_col := "Product" }

/-- An upload whose Sales column holds non-numeric text only. -/
def badRows : List Row :=
  [[("Date", Cell.text "2024-01-01"), ("Sales", Cell.text "abc"),
    ("Profit", Cell.num 5), ("Category", Cell.text "A"), ("Product", Cell.text "X")],
   [("Date", Cell.text "2024-01-02"), ("Sales", Cell.text "n/a"),
    ("Profit", Cell.num 7), ("Category", Cell.text "B"), ("Product", Cell.text "Y")]]

instance : IsTotal (Cell × ℚ) (fun a b => a.2 ≤ b.2) :=
  ⟨fun a b => le_total a.2 b.2⟩

instance : IsTrans (Cell × ℚ) (fun a b => a.2 ≤ b.2) :=
  ⟨fun _ _ _ h1 h2 => le_trans h1 h2⟩

/- ---------------------------------------------------------------------- -/
/- Helper lemmas for the resolver claims.                                  -/
/- ---------------------------------------------------------------------- -/

theorem find?_eq_head_filter {α : Type} (p : α → Bool) (l : List α) :
    l.find? p = (l.filter p).head? := by
  induction l with
  | nil => rfl
  | cons a t ih =>
    by_cases h : p a = true
    · rw [List.find?_cons_of_pos _ h, List.filter_cons_of_pos h, List.head?_cons]
    · rw [List.find?_cons_of_neg _ h, List.filter_cons_of_neg h, ih]

theorem find_column_eq_spec (keys cols : List String) :
    find_column cols keys = spec_first_match keys cols := by
  unfold find_column spec_first_match
  rw [find?_eq_head_filter]
  congr 1
  apply List.filter_congr
  intro c _
  rw [Bool.eq_iff_iff]
  simp [List.any_eq_true]

/-- Claim C1 counterexample: the spec's keyword sets are wider than the
code's.  A lone column named "Amount", "Margin", "Segment" or "Name" gets no
suggestion from `find_column` for its role, while the resolver described by
the claim (keywords including "amount", "margin", "segment", "name") would
suggest it. -/
theorem C1_counterexample :
    find_column ["Amount"] salesKeys = none ∧
    spec_first_match ["sales", "revenue", "amount"] ["Amount"] = some "Amount" ∧
    find_column ["Margin"] profitKeys = none ∧
    spec_first_match ["profit", "margin"] ["Margin"] = some "Margin" ∧
    find_column ["Segment"] categoryKeys = none ∧
    spec_first_match ["category", "segment"] ["Segment"] = some "Segment" ∧
    find_column ["Name"] productKeys = none ∧
    spec_first_match ["product", "item", "name"] ["Name"] = some "Name" := by
  refine ⟨by decide, ?_, by decide, ?_, by decide, ?_, by decide, ?_⟩ <;>
    rw [← find_column_eq_spec] <;> decide

/-- Claim C1 (amended): for every ordered sequence of column names the
resolver returns, per role, the first column in the original order whose
lowercased name contains one of that role's keyword substrings, with keyword
sets Date = {"date"}, Sales = {"sales", "revenue"}, Profit = {"profit"},
Category = {"category"}, Product = {"product", "item"}. -/
theorem C1_resolver_keyword_sets :
    (dateKeys = ["date"] ∧ salesKeys = ["sales", "revenue"] ∧
      profitKeys = ["profit"] ∧ categoryKeys = ["category"] ∧
      productKeys = ["product", "item"]) ∧
    ∀ cols : List String,
      find_column cols dateKeys = spec_first_match dateKeys cols ∧
      find_column cols salesKeys = spec_first_match salesKeys cols ∧
      find_column cols profitKeys = spec_first_match profitKeys cols ∧
      find_column cols categoryKeys = spec_first_match categoryKeys cols ∧
      find_column cols productKeys = spec_first_match productKeys cols :=
  ⟨⟨rfl, rfl, rfl, rfl, rfl⟩, fun cols =>
    ⟨find_column_eq_spec _ cols, find_column_eq_spec _ cols,
      find_column_eq_spec _ cols, find_column_eq_spec _ cols,
      find_column_eq_spec _ cols⟩⟩

/-- Claim C5 (code bug): on a file whose columns are ["Region", "Qty"], no
column name contains "date", so `find_column` returns `None`; the caller then
evaluates `cols.index(None)`, which raises `ValueError` — the mapping step
dies with an uncaught exception instead of asking the user to select a
column. -/
theorem C5_no_match_crash :
    find_column ["Region", "Qty"] dateKeys = none ∧
    default_index ["Region", "Qty"] dateKeys = Except.error PyError.valueError :=
  ⟨by decide, rfl⟩

/-- Claim C8: every suggestion of `find_column` is one of the input columns. -/
theorem C8_suggestion_mem (cols keys : List String) (c : String)
    (h : find_column cols keys = some c) : c ∈ cols :=
  List.mem_of_find?_eq_some h

/-- Claim C8 witness: concrete instance of `C8_suggestion_mem`. -/
theorem C8_witness : "Sales" ∈ ["Sales", "Profit"] :=
  C8_suggestion_mem ["Sales", "Profit"] salesKeys "Sales" (by decide)

/- ---------------------------------------------------------------------- -/
/- Association-list lemmas for reading and writing dataframe columns.      -/
/- ---------------------------------------------------------------------- -/

theorem Row.get_set_ne {c c' : String} (h : c ≠ c') (r : Row) (v : Cell) :
    (r.set c v).get c' = r.get c' := by
  induction r with
  | nil => rfl
  | cons p t ih =>
    by_cases hp : p.1 = c
    · simp [Row.set, Row.get, hp, h, ih]
    · simp [Row.set, Row.get, hp, ih]

theorem Row.get_of_not_has {r : Row} {c : String} (h : r.has c = false) :
    r.get c = Cell.missing := by
  induction r with
  | nil => rfl
  | cons p t ih =>
    simp [Row.has] at h
    simp [Row.get, h.1, ih h.2]

theorem Row.set_of_not_has {r : Row} {c : String} (h : r.has c = false) (v : Cell) :
    r.set c v = r := by
  induction r with
  | nil => rfl
  | cons p t ih =>
    simp [Row.has] at h
    simp [Row.set, h.1, ih h.2]

theorem Row.get_set_self {r : Row} {c : String} (h : r.has c = true) (v : Cell) :
    (r.set c v).get c = v := by
  induction r with
  | nil => simp [Row.has] at h
  | cons p t ih =>
    by_cases hp : p.1 = c
    · simp [Row.set, Row.get, hp]
    · simp [Row.has, hp] at h
      simp [Row.set, Row.get, hp, ih h]

theorem Row.set_set (r : Row) (c : String) (v w : Cell) :
    (r.set c v).set c w = r.set c w := by
  induction r with
  | nil => rfl
  | cons p t ih =>
    by_cases hp : p.1 = c
    · simp [Row.set, hp, ih]
    · simp [Row.set, hp, ih]

theorem Row.fst_set (r : Row) (c : String) (v : Cell) :
    (r.set c v).map Prod.fst = r.map Prod.fst := by
  induction r with
  | nil => rfl
  | cons p t ih => by_cases hp : p.1 = c <;> simp [Row.set, hp, ih]

theorem Row.has_iff_mem_fst (r : Row) (c : String) :
    r.has c = true ↔ c ∈ r.map Prod.fst := by
  induction r with
  | nil => simp [Row.has]
  | cons p t ih =>
    simp only [Row.has, Bool.or_eq_true, decide_eq_true_eq, List.map_cons,
      List.mem_cons, ih]
    constructor
    · rintro (h | h)
      · exact Or.inl h.symm
      · exact Or.inr h
    · rintro (h | h)
      · exact Or.inl h.symm
      · exact Or.inr h

theorem Row.set_get_self {r : Row} (hnd : (r.map Prod.fst).Nodup) (c : String) :
    r.set c (r.get c) = r := by
  induction r with
  | nil => rfl
  | cons p t ih =>
    simp only [List.map_cons, List.nodup_cons] at hnd
    by_cases hp : p.1 = c
    · subst hp
      have hth : ¬ Row.has t p.1 = true :=
        fun hc => hnd.1 ((Row.has_iff_mem_fst t p.1).mp hc)
      simp [Row.set, Row.get, Row.set_of_not_has (Bool.eq_false_iff.mpr hth)]
    · simp [Row.set, Row.get, hp, ih hnd.2]

theorem Row.get_set_coerce (f : Cell → Cell) (hf : f Cell.missing = Cell.missing)
    (r : Row) (c : String) : (r.set c (f (r.get c))).get c = f (r.get c) := by
  by_cases hh : r.has c = true
  · exact Row.get_set_self hh _
  · have hh' : r.has c = false := Bool.eq_false_iff.mpr hh
    rw [Row.set_of_not_has hh', Row.get_of_not_has hh', hf]

theorem Row.get_set2_coerce (f : Cell → Cell) (hf : f Cell.missing = Cell.missing)
    (hff : ∀ x, f (f x) = f x) (r : Row) (c : String) :
    ((r.set c (f (r.get c))).set c (f ((r.set c (f (r.get c))).get c))).get c
      = f (r.get c) := by
  rw [Row.get_set_coerce f hf r c, Row.set_set, hff, Row.get_set_coerce f hf r c]

/- ---------------------------------------------------------------------- -/
/- Coercion and cleaning lemmas.                                           -/
/- ---------------------------------------------------------------------- -/

theorem toNumeric_toNumeric (x : Cell) : toNumeric (toNumeric x) = toNumeric x := by
  cases x with
  | missing => rfl
  | num q => rfl
  | date t => rfl
  | text s => cases h : parseNum s <;> simp [toNumeric, h]

theorem toDatetime_toDatetime (x : Cell) : toDatetime (toDatetime x) = toDatetime x := by
  cases x with
  | missing => rfl
  | num q => rfl
  | date t => rfl
  | text s => cases h : parseDate s <;> simp [toDatetime, h]

theorem cleanRow_get_date {rm : RoleMap} (hds : rm.date_col ≠ rm.sales_col)
    (hdp : rm.date_col ≠ rm.profit_col) (r : Row) :
    (cleanRow rm r).get rm.date_col = toDatetime (r.get rm.date_col) := by
  simp only [cleanRow]
  rw [Row.get_set_ne (Ne.symm hdp), Row.get_set_ne (Ne.symm hds)]
  exact Row.get_set_coerce toDatetime rfl r rm.date_col

theorem cleanRow_get_sales {rm : RoleMap} (hds : rm.date_col ≠ rm.sales_col)
    (r : Row) :
    (cleanRow rm r).get rm.sales_col = toNumeric (r.get rm.sales_col) := by
  simp only [cleanRow]
  by_cases hsp : rm.profit_col = rm.sales_col
  · rw [hsp, Row.get_set2_coerce toNumeric rfl toNumeric_toNumeric,
      Row.get_set_ne hds]
  · rw [Row.get_set_ne hsp, Row.get_set_coerce toNumeric rfl,
      Row.get_set_ne hds]

theorem cleanRow_get_profit {rm : RoleMap} (hdp : rm.date_col ≠ rm.profit_col)
    (r : Row) :
    (cleanRow rm r).get rm.profit_col = toNumeric (r.get rm.profit_col) := by
  simp only [cleanRow]
  by_cases hsp : rm.sales_col = rm.profit_col
  · rw [hsp, Row.get_set2_coerce toNumeric rfl toNumeric_toNumeric,
      Row.get_set_ne hdp]
  · rw [Row.get_set_coerce toNumeric rfl, Row.get_set_ne hsp,
      Row.get_set_ne hdp]

theorem cleanRow_fst (rm : RoleMap) (r : Row) :
    (cleanRow rm r).map Prod.fst = r.map Prod.fst := by
  simp only [cleanRow]
  rw [Row.fst_set, Row.fst_set, Row.fst_set]

/- ---------------------------------------------------------------------- -/
/- Claims C2, C3, C4 and C6.                                               -/
/- ---------------------------------------------------------------------- -/

/-- Claim C2 counterexample: a RoleMap sending both Sales and Profit to the
column "Value" is not rejected — no SchemaError exists anywhere in app.py —
and coercion, cleaning and aggregation all run, producing a populated
metrics record. -/
theorem C2_counterexample :
    dupRm.sales_col = dupRm.profit_col ∧
    clean dupRows dupRm ≠ [] ∧
    (analyze dupRows dupRm).totalSales = 30 ∧
    (analyze dupRows dupRm).totalProfit = 30 := by
  refine ⟨rfl, by decide, by decide, by decide⟩

/-- Claim C2 (amended): app.py validates nothing about the finalized mapping;
a RoleMap whose Sales and Profit roles name the same column is accepted,
cleaning and aggregation run, and the two totals coincide because they sum
the same column. -/
theorem C2_no_validation (rows : List Row) (rm : RoleMap)
    (h : rm.sales_col = rm.profit_col) :
    (analyze rows rm).totalSales = (analyze rows rm).totalProfit := by
  simp only [analyze, total_sales, total_profit]
  rw [h]

/-- Claim C2 witness: `C2_no_validation` at the duplicate-mapping upload. -/
theorem C2_witness :
    (analyze dupRows dupRm).totalSales = (analyze dupRows dupRm).totalProfit :=
  C2_no_validation dupRows dupRm rfl

/-- Claim C3 counterexample: an upload whose Sales column holds only
non-numeric text raises nothing — app.py has no DataQualityError — and the
analysis instead silently drops every row and reports all-zero metrics. -/
theorem C3_counterexample :
    parseNum "abc" = none ∧ parseNum "n/a" = none ∧
    clean badRows badRm = [] ∧
    analyze badRows badRm = ⟨0, 0, 0, [], []⟩ := by
  refine ⟨by decide, by decide, by decide, by decide⟩

/-- Claim C3 (amended): whenever every Sales-role cell (or every Profit-role
cell) of an upload fails numeric coercion, no error is raised: `dropna`
removes every row and all metrics are computed over the empty frame, giving
zero totals and empty series.  The Date role is distinct from both, per the
RoleMap invariant. -/
theorem C3_all_missing_drops_everything (rows : List Row) (rm : RoleMap)
    (hds : rm.date_col ≠ rm.sales_col) (hdp : rm.date_col ≠ rm.profit_col)
    (h : (∀ r ∈ rows, toNumeric (r.get rm.sales_col) = Cell.missing) ∨
      (∀ r ∈ rows, toNumeric (r.get rm.profit_col) = Cell.missing)) :
    clean rows rm = [] ∧ analyze rows rm = ⟨0, 0, 0, [], []⟩ := by
  have hclean : clean rows rm = [] := by
    simp only [clean]
    rw [List.filter_eq_nil_iff]
    intro r hr
    obtain ⟨r0, hr0, rfl⟩ := List.mem_map.mp hr
    cases h with
    | inl hs =>
      simp [keepRow, cleanRow_get_sales hds, hs r0 hr0, notMissing]
    | inr hp =>
      simp [keepRow, cleanRow_get_profit hdp, hp r0 hr0, notMissing]
  refine ⟨hclean, ?_⟩
  simp only [analyze]
  rw [hclean]
  rfl

/-- Claim C3 witness: `C3_all_missing_drops_everything` at the all-text-Sales
upload. -/
theorem C3_witness :
    clean badRows badRm = [] ∧ analyze badRows badRm = ⟨0, 0, 0, [], []⟩ :=
  C3_all_missing_drops_everything badRows badRm (by decide) (by decide)
    (Or.inl (by decide))

/-- Claim C4: the (spec-modelled) profit margin is totalProfit over totalSales
times one hundred when totalSales is nonzero, and exactly zero when totalSales
is zero. -/
theorem C4_margin_definition (rows : List Row) (rm : RoleMap) :
    ((analyze rows rm).totalSales ≠ 0 →
      profitMargin rows rm
        = (analyze rows rm).totalProfit / (analyze rows rm).totalSales * 100) ∧
    ((analyze rows rm).totalSales = 0 → profitMargin rows rm = 0) := by
  constructor
  · intro h
    simp only [profitMargin]
    rw [if_pos h]
  · intro h
    simp only [profitMargin]
    rw [if_neg (fun hn => hn h)]

/-- Claim C4 witness: the scenario upload has totalSales 350 and totalProfit
40, so the margin evaluates to 80/7 (about 11.43). -/
theorem C4_witness : profitMargin scenarioRows scenarioRm = 80 / 7 := by
  have h := (C4_margin_definition scenarioRows scenarioRm).1 (by decide)
  rw [h]
  decide

theorem sum_nonpos_of_forall {l : List ℚ} (h : ∀ x ∈ l, x ≤ 0) : l.sum ≤ 0 := by
  induction l with
  | nil => simp
  | cons a t ih =>
    rw [List.sum_cons]
    exact add_nonpos (h a (List.mem_cons_self a t))
      (ih fun x hx => h x (List.mem_cons_of_mem _ hx))

/-- Claim C6: the loss total is the raw sum of the strictly negative
Profit-role values of the cleaned frame — rows with zero profit excluded —
and is therefore reported as a nonpositive number, not a magnitude. -/
theorem C6_total_loss (rows : List Row) (rm : RoleMap) :
    (analyze rows rm).totalLoss
      = (((clean rows rm).map (fun r => cellNum (r.get rm.profit_col))).filter
        (fun q => decide (q < 0))).sum ∧
    (analyze rows rm).totalLoss ≤ 0 := by
  constructor
  · simp only [analyze, total_loss, loss_rows]
    rw [List.filter_map]
    rfl
  · apply sum_nonpos_of_forall
    intro x hx
    simp only [analyze, total_loss, loss_rows] at hx
    obtain ⟨r, hr, rfl⟩ := List.mem_map.mp hx
    have := (List.mem_filter.mp hr).2
    simp only [decide_eq_true_eq] at this
    exact le_of_lt this


/- ---------------------------------------------------------------------- -/
/- Claims C9, C10 and C7.                                                  -/
/- ---------------------------------------------------------------------- -/

theorem map_eq_self {α : Type} {f : α → α} :
    ∀ {l : List α}, (∀ a ∈ l, f a = a) → l.map f = l := by
  intro l
  induction l with
  | nil => intro _; rfl
  | cons a t ih =>
    intro h
    rw [List.map_cons, h a (List.mem_cons_self a t),
      ih (fun x hx => h x (List.mem_cons_of_mem _ hx))]

theorem cleanRow_fix {rm : RoleMap} (hds : rm.date_col ≠ rm.sales_col)
    (hdp : rm.date_col ≠ rm.profit_col) (r0 : Row)
    (hnd : ((cleanRow rm r0).map Prod.fst).Nodup) :
    cleanRow rm (cleanRow rm r0) = cleanRow rm r0 := by
  have h1 : toDatetime ((cleanRow rm r0).get rm.date_col)
      = (cleanRow rm r0).get rm.date_col := by
    rw [cleanRow_get_date hds hdp, toDatetime_toDatetime]
  have h2 : toNumeric ((cleanRow rm r0).get rm.sales_col)
      = (cleanRow rm r0).get rm.sales_col := by
    rw [cleanRow_get_sales hds, toNumeric_toNumeric]
  have h3 : toNumeric ((cleanRow rm r0).get rm.profit_col)
      = (cleanRow rm r0).get rm.profit_col := by
    rw [cleanRow_get_profit hdp, toNumeric_toNumeric]
  revert h1 h2 h3 hnd
  generalize cleanRow rm r0 = r
  intro hnd h1 h2 h3
  show cleanRow rm r = r
  simp only [cleanRow]
  rw [h1, Row.set_get_self hnd, h2, Row.set_get_self hnd, h3,
    Row.set_get_self hnd]

theorem clean_idem (rows : List Row) (rm : RoleMap)
    (hds : rm.date_col ≠ rm.sales_col) (hdp : rm.date_col ≠ rm.profit_col)
    (hnd : ∀ r ∈ rows, (r.map Prod.fst).Nodup) :
    clean (clean rows rm) rm = clean rows rm := by
  have hmem : ∀ r ∈ clean rows rm, cleanRow rm r = r ∧ keepRow rm r = true := by
    intro r hr
    simp only [clean] at hr
    obtain ⟨hr1, hk⟩ := List.mem_filter.mp hr
    obtain ⟨r0, hr0, rfl⟩ := List.mem_map.mp hr1
    refine ⟨?_, hk⟩
    apply cleanRow_fix hds hdp
    rw [cleanRow_fst]
    exact hnd r0 hr0
  show ((clean rows rm).map (cleanRow rm)).filter (keepRow rm) = clean rows rm
  rw [map_eq_self (fun r hr => (hmem r hr).1)]
  exact List.filter_eq_self.mpr (fun r hr => (hmem r hr).2)

/-- Claim C9: cleaning rewrites the coerced columns in place, yet running the
cleaning-plus-metrics pass a second time over the already-cleaned frame is a
no-op — under the data-model invariants that a RoleMap's Date column differs
from its Sales and Profit columns and that column names are unique within a
row. -/
theorem C9_idempotent (rows : List Row) (rm : RoleMap)
    (hds : rm.date_col ≠ rm.sales_col) (hdp : rm.date_col ≠ rm.profit_col)
    (hnd : ∀ r ∈ rows, (r.map Prod.fst).Nodup) :
    clean (clean rows rm) rm = clean rows rm ∧
    analyze (clean rows rm) rm = analyze rows rm := by
  have h := clean_idem rows rm hds hdp hnd
  refine ⟨h, ?_⟩
  simp only [analyze]
  rw [h]

/-- Claim C9 witness: `C9_idempotent` at the scenario upload. -/
theorem C9_witness :
    clean (clean scenarioRows scenarioRm) scenarioRm = clean scenarioRows scenarioRm ∧
    analyze (clean scenarioRows scenarioRm) scenarioRm = analyze scenarioRows scenarioRm :=
  C9_idempotent scenarioRows scenarioRm (by decide) (by decide) (by decide)

theorem sum_map_filter_split {α : Type} (val : α → ℚ) (p : α → Bool) (l : List α) :
    ((l.filter p).map val).sum + ((l.filter (fun a => !p a)).map val).sum
      = (l.map val).sum := by
  induction l with
  | nil => simp
  | cons a t ih =>
    by_cases h : p a = true
    · rw [List.filter_cons_of_pos h, List.filter_cons_of_neg (by simp [h]),
        List.map_cons, List.sum_cons, List.map_cons, List.sum_cons, add_assoc, ih]
    · rw [List.filter_cons_of_neg h, List.filter_cons_of_pos (by simp [h]),
        List.map_cons, List.sum_cons, List.map_cons, List.sum_cons, ← ih,
        add_left_comm]

theorem sum_groups {α κ : Type} [DecidableEq κ] (key : α → κ) (val : α → ℚ) :
    ∀ ks : List κ, ks.Nodup → ∀ l : List α, (∀ a ∈ l, key a ∈ ks) →
      (ks.map (fun k => ((l.filter (fun a => decide (key a = k))).map val).sum)).sum
        = (l.map val).sum := by
  intro ks
  induction ks with
  | nil =>
    intro _ l hl
    have hl0 : l = [] :=
      List.eq_nil_iff_forall_not_mem.mpr (fun a ha => by simpa using hl a ha)
    subst hl0
    rfl
  | cons k ks ih =>
    intro hnd l hl
    obtain ⟨hk, hnd2⟩ := List.nodup_cons.mp hnd
    rw [List.map_cons, List.sum_cons]
    have hfilter : ∀ k2 ∈ ks,
        l.filter (fun a => decide (key a = k2))
          = (l.filter (fun a => !decide (key a = k))).filter
              (fun a => decide (key a = k2)) := by
      intro k2 hk2
      rw [List.filter_filter]
      apply List.filter_congr
      intro a _
      by_cases hh : key a = k2
      · have hne : ¬ k2 = k := by
          intro he
          rw [he] at hk2
          exact hk hk2
        simp [hh, hne]
      · simp [hh]
    have htail :
        (ks.map (fun k2 => ((l.filter (fun a => decide (key a = k2))).map val).sum)).sum
          = (ks.map (fun k2 => (((l.filter (fun a => !decide (key a = k))).filter
              (fun a => decide (key a = k2))).map val).sum)).sum := by
      congr 1
      apply List.map_congr_left
      intro k2 hk2
      rw [hfilter k2 hk2]
    have hsub : ∀ a ∈ l.filter (fun a => !decide (key a = k)), key a ∈ ks := by
      intro a ha
      obtain ⟨hal, hfa⟩ := List.mem_filter.mp ha
      simp at hfa
      rcases List.mem_cons.mp (hl a hal) with he | hm
      · exact absurd he hfa
      · exact hm
    rw [htail, ih hnd2 _ hsub]
    exact sum_map_filter_split val (fun a => decide (key a = k)) l

/-- Claim C10: the daily profit series partitions the cleaned rows — every
surviving row carries a parsed date — so its totals sum exactly to
totalProfit. -/
theorem C10_daily_sums_to_total (rows : List Row) (rm : RoleMap) :
    (((analyze rows rm).dailyProfit).map Prod.snd).sum
      = (analyze rows rm).totalProfit := by
  simp only [analyze, daily, total_profit]
  rw [List.map_map]
  rw [List.Perm.sum_eq (List.Perm.map _ (List.perm_insertionSort _ _))]
  exact sum_groups (fun r : Row => dtDate (Row.get r rm.date_col))
    (fun r : Row => cellNum (Row.get r rm.profit_col)) _ (List.nodup_dedup _) _
    (fun a ha => List.mem_dedup.mpr (List.mem_map_of_mem _ ha))

/-- Claim C7: the loss report restricts to rows with strictly negative
profit, groups them by the Product column, sums profit per group, sorts the
group totals ascending and keeps at most the first five: the result is sorted
ascending by total, its length is the number of distinct loss products capped
at five, and every listed pair is a loss product together with its group
total. -/
theorem C7_loss_report (rows : List Row) (rm : RoleMap) :
    List.Pairwise (fun a b : Cell × ℚ => a.2 ≤ b.2) ((analyze rows rm).lossByProduct) ∧
    ((analyze rows rm).lossByProduct).length
      = min 5 (group_sums (loss_rows (clean rows rm) rm) rm.product_col rm.profit_col).length ∧
    ∀ p ∈ (analyze rows rm).lossByProduct,
      (∃ r ∈ loss_rows (clean rows rm) rm, Row.get r rm.product_col = p.1) ∧
      p.2 = (((loss_rows (clean rows rm) rm).filter
          (fun r => decide (Row.get r rm.product_col = p.1))).map
        (fun r => cellNum (Row.get r rm.profit_col))).sum := by
  refine ⟨?_, ?_, ?_⟩
  · simp only [analyze, lossByProduct]
    apply List.Pairwise.sublist (List.take_sublist 5 _)
    exact List.sorted_insertionSort _ _
  · simp only [analyze, lossByProduct]
    rw [List.length_take, (List.perm_insertionSort _ _).length_eq]
  · intro p hp
    simp only [analyze, lossByProduct] at hp
    have hp2 := (List.take_sublist 5 _).subset hp
    have hp3 := ((List.perm_insertionSort _ _).mem_iff).mp hp2
    simp only [group_sums] at hp3
    obtain ⟨k, hk, hpk⟩ := List.mem_map.mp hp3
    cases hpk
    constructor
    · obtain ⟨r, hr, hrk⟩ := List.mem_map.mp (List.mem_dedup.mp hk)
      exact ⟨r, hr, hrk⟩
    · rfl

/-- Claim C7 witness: on the scenario upload the only loss row is product "Y"
with profit -10, and `C7_loss_report` applies to that entry of the report. -/
theorem C7_witness :
    (∃ r ∈ loss_rows (clean scenarioRows scenarioRm) scenarioRm,
      Row.get r scenarioRm.product_col = (Cell.text "Y", (-10 : ℚ)).1) ∧
    (Cell.text "Y", (-10 : ℚ)).2
      = (((loss_rows (clean scenarioRows scenarioRm) scenarioRm).filter
          (fun r => decide (Row.get r scenarioRm.product_col = (Cell.text "Y", (-10 : ℚ)).1))).map
        (fun r => cellNum (Row.get r scenarioRm.profit_col))).sum :=
  (C7_loss_report scenarioRows scenarioRm).2.2 (Cell.text "Y", (-10 : ℚ)) (by decide)
